import Mathlib

/-!
Shallow embedding of the EV activity-scheduling dynamic program
(`src/src/scheduling.c`, `src/src/utils.c`, `src/src/main.c`).

Conventions of the embedding:
* C `double` values are modelled as exact rationals (`ℚ`); C `int` as `ℤ`.
* A cast `(int)x` of a non-negative double is truncation toward zero,
  modelled by `ctrunc`; C integer division is `Int.tdiv` (truncation).
* `Group_mem` doubly linked lists are modelled as `List ℤ` in list order
  (the back pointers carry no information).
* `sqrt` in `distance_x` is irrational in general, so the distance matrix
  is a `Config` field `dist`; the predicate `IsEuclid` states that `dist`
  is exactly the Euclidean distance of the activity coordinates, which is
  assumed where a claim needs it.
* The globals of `scheduling.c` are gathered in a `Config` record; the
  `Label` chain (`previous` pointers) is an inductive type.
-/

set_option maxRecDepth 4000

namespace EVSched

/-- Truncation toward zero, the semantics of a C cast from double to int. -/
def ctrunc (q : ℚ) : ℤ := if q < 0 then ⌈q⌉ else ⌊q⌋

/-- C integer division truncates toward zero. -/
def cdiv (a b : ℤ) : ℤ := Int.tdiv a b

/-- The `Activity` struct of `scheduling.h`.  `group` is the activity type
(the code also calls it `activity_type`); `memory` is the DSSR
forbidden-group linked list. -/
structure Activity where
  id : ℤ
  earliest_start : ℤ
  latest_start : ℤ
  min_duration : ℤ
  max_duration : ℤ
  x : ℚ
  y : ℚ
  group : ℤ
  memory : List ℤ
  des_duration : ℤ
  des_start_time : ℤ
  charge_mode : ℤ
  is_charging : Bool
  is_service_station : Bool
deriving DecidableEq

/-- A default activity record (used only for out-of-range array reads,
which do not occur on well-formed inputs). -/
def defaultActivity : Activity :=
  { id := 0, earliest_start := 0, latest_start := 0, min_duration := 0,
    max_duration := 0, x := 0, y := 0, group := 0, memory := [],
    des_duration := 0, des_start_time := 0, charge_mode := 0,
    is_charging := false, is_service_station := false }

instance : Inhabited Activity := ⟨defaultActivity⟩

/-- The scalar fields of the `Label` struct of `scheduling.c`
(`charge_cost` is the cumulative charging cost field used by the code). -/
structure LabelCore where
  act_id : ℤ
  time : ℤ
  start_time : ℤ
  duration : ℤ
  deviation_start : ℤ
  deviation_dur : ℤ
  soc_at_activity_start : ℚ
  current_soc : ℚ
  delta_soc : ℚ
  charge_duration : ℤ
  charge_cost : ℚ
  utility : ℚ
  mem : List ℤ
  act : Activity
deriving DecidableEq

/-- A `Label` with its chain of `previous` pointers. -/
inductive Label where
  | mk : LabelCore → Option Label → Label

def Label.core : Label → LabelCore
  | .mk c _ => c

def Label.previous : Label → Option Label
  | .mk _ p => p

def Label.act_id (L : Label) : ℤ := L.core.act_id
def Label.time (L : Label) : ℤ := L.core.time
def Label.start_time (L : Label) : ℤ := L.core.start_time
def Label.duration (L : Label) : ℤ := L.core.duration
def Label.deviation_start (L : Label) : ℤ := L.core.deviation_start
def Label.deviation_dur (L : Label) : ℤ := L.core.deviation_dur
def Label.soc_at_activity_start (L : Label) : ℚ := L.core.soc_at_activity_start
def Label.current_soc (L : Label) : ℚ := L.core.current_soc
def Label.delta_soc (L : Label) : ℚ := L.core.delta_soc
def Label.charge_duration (L : Label) : ℤ := L.core.charge_duration
def Label.charge_cost (L : Label) : ℚ := L.core.charge_cost
def Label.utility (L : Label) : ℚ := L.core.utility
def Label.mem (L : Label) : List ℤ := L.core.mem
def Label.act (L : Label) : Activity := L.core.act

/-- The global configuration of `scheduling.c`: general parameters,
battery and tariff constants, utility coefficients, the activity array,
and the (Euclidean) distance function used by `distance_x`. -/
structure Config where
  time_interval : ℤ
  speed : ℚ
  travel_time_penalty : ℚ
  horizon : ℤ
  activities : List Activity
  battery_capacity : ℚ
  soc_full : ℚ
  soc_threshold : ℚ
  energy_consumption_rate : ℚ
  initial_soc : ℚ
  slow_charge_power : ℚ
  fast_charge_power : ℚ
  rapid_charge_power : ℚ
  slow_charge_rate : ℚ
  fast_charge_rate : ℚ
  rapid_charge_rate : ℚ
  home_slow_charge_price : ℚ
  AC_charge_price : ℚ
  public_dc_charge_price : ℚ
  tou_peak_factor : ℚ
  tou_midpeak_factor : ℚ
  tou_offpeak_factor : ℚ
  peak_start : ℤ
  peak_end : ℤ
  midpeak1_start : ℤ
  midpeak1_end : ℤ
  midpeak2_start : ℤ
  midpeak2_end : ℤ
  asc_parameters : ℤ → ℚ
  early_parameters : ℤ → ℚ
  late_parameters : ℤ → ℚ
  long_parameters : ℤ → ℚ
  short_parameters : ℤ → ℚ
  gamma_charge_work : ℚ
  gamma_charge_non_work : ℚ
  gamma_charge_home : ℚ
  theta_soc : ℚ
  beta_delta_soc : ℚ
  beta_charge_cost : ℚ
  dist : Activity → Activity → ℚ

/-- `num_activities`, set by `set_activities`. -/
def num_activities (cfg : Config) : ℤ := (cfg.activities.length : ℤ)

/-- `activities[0]` (dawn). -/
def firstActivity (cfg : Config) : Activity := cfg.activities.headD defaultActivity

/-- `activities[num_activities - 1]` (dusk). -/
def lastActivity (cfg : Config) : Activity := cfg.activities.getLastD defaultActivity

/-- Squared Euclidean distance of two activity locations; `distance_x`
returns its square root, so `cfg.dist` is Euclidean iff `IsEuclid` holds. -/
def distSq (a1 a2 : Activity) : ℚ := (a2.x - a1.x) ^ 2 + (a2.y - a1.y) ^ 2

/-- `d` is the value `distance_x(a1, a2)` computes: the non-negative
square root of the squared coordinate differences. -/
def IsDistOf (a1 a2 : Activity) (d : ℚ) : Prop := 0 ≤ d ∧ d ^ 2 = distSq a1 a2

instance (a1 a2 : Activity) (d : ℚ) : Decidable (IsDistOf a1 a2 d) :=
  inferInstanceAs (Decidable (0 ≤ d ∧ d ^ 2 = distSq a1 a2))

/-- The `dist` field of `cfg` agrees with `distance_x` wherever the
Euclidean distance is rational. -/
def IsEuclid (cfg : Config) : Prop := ∀ a1 a2, IsDistOf a1 a2 (cfg.dist a1 a2)

/-- `travel_time` of `scheduling.c` applied to an already computed
distance value: truncate `dist / speed` to whole minutes, round up to a
multiple of `time_interval`, divide by `time_interval`. -/
def travel_time_of (cfg : Config) (dist : ℚ) : ℤ :=
  let time : ℤ := ctrunc (dist / cfg.speed)
  let time2 : ℤ := ⌈(time : ℚ) / (cfg.time_interval : ℚ)⌉ * cfg.time_interval
  cdiv time2 cfg.time_interval

/-- `travel_time(a1, a2)` of `scheduling.c`. -/
def travel_time (cfg : Config) (a1 a2 : Activity) : ℤ :=
  travel_time_of cfg (cfg.dist a1 a2)

/-- `energy_consumed_soc(a1, a2)` of `scheduling.c`. -/
def energy_consumed_soc (cfg : Config) (a1 a2 : Activity) : ℚ :=
  cfg.energy_consumption_rate * (cfg.dist a1 a2 / 1000) / cfg.battery_capacity

/-- `get_charge_rate_and_price(a)` of `scheduling.c`: note that the
switch sends `charge_mode == 1` to rate 0 (commented "not charging"),
`2` to the slow rate, `3` to the fast rate and `4` to the rapid rate. -/
def get_charge_rate_and_price (cfg : Config) (a : Activity) : ℚ × ℚ :=
  if a.charge_mode = 1 then (0, 0)
  else if a.charge_mode = 2 then
    (cfg.slow_charge_rate,
      if a.group = 0 then cfg.home_slow_charge_price else cfg.AC_charge_price)
  else if a.charge_mode = 3 then (cfg.fast_charge_rate, cfg.AC_charge_price)
  else if a.charge_mode = 4 then (cfg.rapid_charge_rate, cfg.public_dc_charge_price)
  else (0, 0)

/-- `initialize_charge_rates()` of `scheduling.c`.  The C source computes
`time_interval / 60` with two ints, so the fraction of hours per interval
is an integer division. -/
def initialize_charge_rates (cfg : Config) : Config :=
  let fraction_of_hours_per_interval : ℚ := ((cdiv cfg.time_interval 60 : ℤ) : ℚ)
  { cfg with
    slow_charge_rate := cfg.slow_charge_power / cfg.battery_capacity * fraction_of_hours_per_interval
    fast_charge_rate := cfg.fast_charge_power / cfg.battery_capacity * fraction_of_hours_per_interval
    rapid_charge_rate := cfg.rapid_charge_power / cfg.battery_capacity * fraction_of_hours_per_interval }

/-- `get_tou_factor(time)` of `scheduling.c`. -/
def get_tou_factor (cfg : Config) (time : ℤ) : ℚ :=
  let hour : ℤ := cdiv (time * cfg.time_interval) 60
  if cfg.peak_start ≤ hour ∧ hour < cfg.peak_end then cfg.tou_peak_factor
  else if (cfg.midpeak1_start ≤ hour ∧ hour < cfg.midpeak1_end) ∨
          (cfg.midpeak2_start ≤ hour ∧ hour < cfg.midpeak2_end) then cfg.tou_midpeak_factor
  else cfg.tou_offpeak_factor

/-- Scan of a `Group_mem` linked list for a group value. -/
def group_mem_contains : List ℤ → ℤ → Bool
  | [], _ => false
  | g :: rest, v => if g = v then true else group_mem_contains rest v

/-- `mem_contains(L, a)` of `utils.c`: groups equal to 0 are never
reported as contained. -/
def mem_contains (L : Label) (a : Activity) : Bool :=
  if a.group = 0 then false else group_mem_contains L.mem a.group

/-- `dom_mem_contains(L1, L2)` of `utils.c`: every group in `L1`'s memory
is also in `L2`'s memory. -/
def dom_mem_contains (L1 L2 : Label) : Bool :=
  L1.mem.all (fun g => group_mem_contains L2.mem g)

/-- `unionLinkedLists(head1, head2, pipi)` of `utils.c`.  Despite its
name and doc comment, when both lists are non-empty the loop keeps a node
of `head1` only when its group also occurs in `head2` (an intersection),
then appends `pipi`; when either list is empty the result is `[pipi]`. -/
def unionLinkedLists (head1 head2 : List ℤ) (pipi : ℤ) : List ℤ :=
  match head1, head2 with
  | [], _ => [pipi]
  | _, [] => [pipi]
  | _, _ => head1.filter (fun g => group_mem_contains head2 g) ++ [pipi]

/-- `copyLinkedList` of `utils.c` produces an equal list. -/
def copyLinkedList (head : List ℤ) : List ℤ := head

/-- `add_memory(at, c)` of `utils.c`: append `c` at the end of the memory
list of `activities[at]` (no duplicate check). -/
def add_memory : List Activity → ℤ → ℤ → List Activity
  | [], _, _ => []
  | a :: rest, i, c =>
      if i = 0 then { a with memory := a.memory ++ [c] } :: rest
      else a :: add_memory rest (i - 1) c

/-- The memory list of `activities[i]`. -/
def memAt : List Activity → ℤ → List ℤ
  | [], _ => []
  | a :: rest, i => if i = 0 then a.memory else memAt rest (i - 1)

/-- `create_label(&activities[0])` of `scheduling.c`: the seed label at
dawn, with `time = duration = min_duration`, memory `{0}` and the initial
state of charge. -/
def create_label (cfg : Config) : Label :=
  let aa := firstActivity cfg
  .mk
    { act_id := 0, time := aa.min_duration, start_time := 0,
      duration := aa.min_duration, deviation_start := 0, deviation_dur := 0,
      soc_at_activity_start := cfg.initial_soc, current_soc := cfg.initial_soc,
      delta_soc := 0, charge_duration := 0, charge_cost := 0, utility := 0,
      mem := [0], act := aa }
    none

/-- The test `L->previous != NULL && L->previous->act_id == a->id` of
`is_feasible`. -/
def prev_act_id_eq (L : Label) (a : Activity) : Bool :=
  match L.previous with
  | none => false
  | some p => decide (p.act_id = a.id)

/-- The charging-mode continuity test of `is_feasible`'s continuation
case: `L->previous != NULL && L->act->charge_mode != a->charge_mode`. -/
def charge_mode_mismatch (L : Label) (a : Activity) : Bool :=
  match L.previous with
  | none => false
  | some _ => decide (¬ L.act.charge_mode = a.charge_mode)

/-- `is_feasible(L, a)` of `scheduling.c`: the feasibility oracle, with
the continuation case (same activity) and the transition case. -/
def is_feasible (cfg : Config) (oL : Option Label) (a : Activity) : Bool :=
  match oL with
  | none => false
  | some L =>
    if L.act_id ≠ 0 ∧ a.id = 0 then false
    else if L.act_id = a.id then
      -- CASE 1: continuing at the same activity
      if L.duration + 1 > a.max_duration then false
      else if a.is_charging ∧ a.charge_mode = 0 then false
      else if a.is_charging ∧ charge_mode_mismatch L a = true then false
      else if a.is_charging ∧
          L.current_soc + (get_charge_rate_and_price cfg a).1 > cfg.soc_full then false
      else if a.is_service_station ∧ ¬ a.is_charging then false
      else true
    else
      -- CASE 2: transition to a different activity
      if prev_act_id_eq L a = true then false
      else if L.act_id = num_activities cfg - 1 then false
      else if L.duration < L.act.min_duration then false
      else if L.time + travel_time cfg L.act a + a.min_duration
              + travel_time cfg a (lastActivity cfg) ≥ cfg.horizon - 1 then false
      else if L.time + travel_time cfg L.act a < a.earliest_start then false
      else if L.time + travel_time cfg L.act a > a.latest_start then false
      else if mem_contains L a = true then false
      else if L.current_soc - energy_consumed_soc cfg L.act a < 0 then false
      else if a.is_charging ∧ a.charge_mode = 0 then false
      else if a.is_service_station ∧ ¬ a.is_charging then false
      else true

/-- `dominates(L1, L2)` of `scheduling.c`: 0 = no dominance, 1 = `L2` is
NULL, 2 = dominance by the criteria (equal activity, utility at least as
large, memory of `L2` contained in that of `L1`, time no later). -/
def dominates (L1 L2 : Option Label) : ℤ :=
  match L1 with
  | none => 0
  | some l1 =>
    match L2 with
    | none => 1
    | some l2 =>
      if l1.act_id ≠ l2.act_id then 0
      else if l1.utility ≥ l2.utility then
        if dom_mem_contains l2 l1 = true then
          if l1.time ≤ l2.time then 2 else 0
        else 0
      else 0

/-- `update_utility(L)` of `scheduling.c`, called on a label that has just
transitioned to a new activity (`L->previous` is the end of the finished
activity).  The C function dereferences `L->previous` unconditionally;
the DP only calls it with a predecessor present, and this embedding
returns the stored utility unchanged in the impossible NULL case. -/
def update_utility (cfg : Config) (L : Label) : ℚ :=
  match L.previous with
  | none => L.utility
  | some previous_L =>
    let act := L.act
    let activity_type := act.group
    let previous_act := previous_L.act
    let previous_activity_type := previous_act.group
    let u1 := previous_L.utility + cfg.asc_parameters activity_type
        + cfg.travel_time_penalty * (travel_time cfg previous_act act : ℚ)
    let u2 :=
      if previous_activity_type ≠ 0 ∧ ¬ previous_act.is_service_station then
        u1 + cfg.short_parameters previous_activity_type * (cfg.time_interval : ℚ) *
              max 0 ((previous_act.des_duration : ℚ) - (previous_L.duration : ℚ))
           + cfg.long_parameters previous_activity_type * (cfg.time_interval : ℚ) *
              max 0 ((previous_L.duration : ℚ) - (previous_act.des_duration : ℚ))
      else u1
    let u3 :=
      if activity_type ≠ 0 ∧ ¬ act.is_service_station then
        u2 + cfg.early_parameters activity_type * (cfg.time_interval : ℚ) *
              max 0 ((act.des_start_time : ℚ) - (L.start_time : ℚ))
           + cfg.late_parameters activity_type * (cfg.time_interval : ℚ) *
              max 0 ((L.start_time : ℚ) - (act.des_start_time : ℚ))
      else u2
    if previous_act.is_charging then
      let u4 := u3 +
        (if previous_activity_type = 6 then cfg.gamma_charge_work
         else if previous_activity_type = 0 then cfg.gamma_charge_home
         else cfg.gamma_charge_non_work)
      let u5 := u4 + cfg.theta_soc * max 0 (cfg.soc_threshold - previous_L.soc_at_activity_start)
      let u6 := u5 + cfg.beta_delta_soc * (previous_L.current_soc - previous_L.soc_at_activity_start)
      match previous_L.previous with
      | some q => u6 + cfg.beta_charge_cost * (previous_L.charge_cost - q.charge_cost)
      | none => u6 + cfg.beta_charge_cost * previous_L.charge_cost
    else u3

/-- The transition branch of `update_label_from_activity` (new activity),
all fields except the utility, which is computed afterwards by
`update_utility`. -/
def transition_base (cfg : Config) (current : Label) (a : Activity) : LabelCore :=
  let start_time := current.time + travel_time cfg current.act a
  let mem := unionLinkedLists current.mem a.memory a.group
  let duration :=
    if a.id = num_activities cfg - 1 then cfg.horizon - start_time - 1 else a.min_duration
  let time :=
    if a.id = num_activities cfg - 1 then cfg.horizon - 1 else start_time + a.min_duration
  let soc_at_activity_start := current.current_soc - energy_consumed_soc cfg current.act a
  let rp := get_charge_rate_and_price cfg a
  let delta_soc :=
    if a.is_charging then min (cfg.soc_full - soc_at_activity_start) rp.1 else 0
  let current_soc :=
    if a.is_charging then soc_at_activity_start + delta_soc else soc_at_activity_start
  let charge_duration := if a.is_charging then cfg.time_interval else 0
  let charge_cost :=
    if a.is_charging then
      current.charge_cost + rp.2 * get_tou_factor cfg start_time * (delta_soc * cfg.battery_capacity)
    else current.charge_cost
  let deviation_start := current.deviation_start +
    (if ¬ a.is_service_station ∧ a.group ≠ 0 then |start_time - a.des_start_time| else 0)
  let deviation_dur := current.deviation_dur +
    (if ¬ current.act.is_service_station ∧ current.act.group ≠ 0 then
      |current.duration - current.act.des_duration| else 0)
  { act_id := a.id, time := time, start_time := start_time, duration := duration,
    deviation_start := deviation_start, deviation_dur := deviation_dur,
    soc_at_activity_start := soc_at_activity_start, current_soc := current_soc,
    delta_soc := delta_soc, charge_duration := charge_duration,
    charge_cost := charge_cost, utility := 0, mem := mem, act := a }

/-- The continuation branch of `update_label_from_activity` (same
activity): advance `time` and `duration` by `time_interval`, keep the
utility, and perform one interval of charging when the activity charges
and the battery is not full. -/
def continuation_base (cfg : Config) (current : Label) (a : Activity) : LabelCore :=
  let time := current.time + cfg.time_interval
  let rp := get_charge_rate_and_price cfg a
  let delta_soc :=
    if a.is_charging ∧ current.current_soc < cfg.soc_full then
      min (cfg.soc_full - current.current_soc) rp.1
    else 0
  let current_soc :=
    if a.is_charging ∧ current.current_soc < cfg.soc_full then
      current.current_soc + delta_soc
    else current.current_soc
  let charge_duration :=
    if a.is_charging ∧ current.current_soc < cfg.soc_full then
      current.charge_duration + cfg.time_interval
    else current.charge_duration
  let charge_cost :=
    if a.is_charging ∧ current.current_soc < cfg.soc_full then
      current.charge_cost + rp.2 * get_tou_factor cfg time * (delta_soc * cfg.battery_capacity)
    else current.charge_cost
  { act_id := a.id, time := time, start_time := current.start_time,
    duration := current.duration + cfg.time_interval,
    deviation_start := current.deviation_start, deviation_dur := current.deviation_dur,
    soc_at_activity_start := current.soc_at_activity_start, current_soc := current_soc,
    delta_soc := delta_soc, charge_duration := charge_duration,
    charge_cost := charge_cost, utility := current.utility,
    mem := copyLinkedList current.mem, act := a }

/-- `update_label_from_activity(current_label, a)` of `scheduling.c`. -/
def update_label_from_activity (cfg : Config) (current : Label) (a : Activity) : Label :=
  if a.id ≠ current.act_id then
    let base := transition_base cfg current a
    .mk { base with utility := update_utility cfg (.mk base (some current)) } (some current)
  else
    .mk (continuation_base cfg current a) (some current)

/-- The labels produced by the DP: the seed label, and every extension of
a reachable label by an activity of the input array that `is_feasible`
admits.  (The bucket's dominance pruning only removes labels, so every
label the DP stores is in this relation.) -/
inductive Reaches (cfg : Config) : Label → Prop
  | seed : Reaches cfg (create_label cfg)
  | step (L : Label) (a : Activity) (hL : Reaches cfg L) (ha : a ∈ cfg.activities)
      (hf : is_feasible cfg (some L) a = true) :
      Reaches cfg (update_label_from_activity cfg L a)

/-- The `(act_id, activity_type)` pairs along a label chain, newest label
first — exactly what the pointer walks of `DSSR` inspect. -/
def chainIds : Option Label → List (ℤ × ℤ)
  | none => []
  | some (.mk c p) => (c.act_id, c.act.group) :: chainIds p

/-- The cycle search of `DSSR`: walk the chain backwards, skipping
labels of the last two activity ids (`num_activities - 1` and
`num_activities - 2`); at each remaining position skip the contiguous
run of the current activity id and look for an earlier label with the
same activity type.  Returns the offending activity id, its group, and
the remainder of the chain after the outer pointer has stepped once
more back. -/
def findCycle (N : ℤ) : List (ℤ × ℤ) → Option (ℤ × ℤ × List (ℤ × ℤ))
  | [] => none
  | (i, g) :: rest =>
    if i = N - 1 ∨ i = N - 2 then findCycle N rest
    else if (rest.dropWhile (fun p => decide (p.1 = i))).any (fun p => decide (p.2 = g)) then
      some (i, g, rest)
    else findCycle N rest

/-- `DSSR(L)` of `scheduling.c`, acting on the activity array `acts`
(whose `memory` fields it mutates through `add_memory`): returns the
cycle flag and the updated activity array.  When a cycle at activity
`c` with group `g` is found, the fix-up walk skips the remaining labels
of activity `c` and appends `g` to the memory of the activity of every
following label until the chain ends or activity `c` reappears. -/
def DSSR (N : ℤ) (acts : List Activity) (L : Option Label) : Bool × List Activity :=
  match findCycle N (chainIds L) with
  | none => (false, acts)
  | some (c, g, rest) =>
    let p3 := rest.dropWhile (fun p => decide (p.1 = c))
    let walk := p3.takeWhile (fun p => decide (¬ p.1 = c))
    (true, walk.foldl (fun as p => add_memory as p.1 g) acts)

/-- Every activity id equals its index in the activity array — the input
convention of the data model (identity = index, dawn at 0, dusk last). -/
def idsIndexed (cfg : Config) : Prop :=
  ∀ i : Fin cfg.activities.length, (cfg.activities.get i).id = (i : ℤ)

instance (cfg : Config) : Decidable (idsIndexed cfg) :=
  inferInstanceAs
    (Decidable (∀ i : Fin cfg.activities.length, (cfg.activities.get i).id = (i : ℤ)))

/-- The utility evaluator as §4.3 of the specification words it, with the
charging-cost term amended to what the code computes: the cost
accumulated since the immediately preceding label of the finished
activity (its final interval), or the whole cumulative cost when the
finished activity's last label is the seed. -/
def update_utility_spec (cfg : Config) (L : Label) : ℚ :=
  match L.previous with
  | none => L.utility
  | some prev =>
    let attraction := cfg.asc_parameters L.act.group
    let travel := cfg.travel_time_penalty * (travel_time cfg prev.act L.act : ℚ)
    let duration_penalty :=
      if prev.act.group = 0 ∨ prev.act.is_service_station then 0
      else
        cfg.short_parameters prev.act.group * (cfg.time_interval : ℚ) *
            max 0 ((prev.act.des_duration : ℚ) - (prev.duration : ℚ)) +
          cfg.long_parameters prev.act.group * (cfg.time_interval : ℚ) *
            max 0 ((prev.duration : ℚ) - (prev.act.des_duration : ℚ))
    let start_penalty :=
      if L.act.group = 0 ∨ L.act.is_service_station then 0
      else
        cfg.early_parameters L.act.group * (cfg.time_interval : ℚ) *
            max 0 ((L.act.des_start_time : ℚ) - (L.start_time : ℚ)) +
          cfg.late_parameters L.act.group * (cfg.time_interval : ℚ) *
            max 0 ((L.start_time : ℚ) - (L.act.des_start_time : ℚ))
    let charging_terms :=
      if prev.act.is_charging then
        (if prev.act.group = 6 then cfg.gamma_charge_work
         else if prev.act.group = 0 then cfg.gamma_charge_home
         else cfg.gamma_charge_non_work) +
          cfg.theta_soc * max 0 (cfg.soc_threshold - prev.soc_at_activity_start) +
          cfg.beta_delta_soc * (prev.current_soc - prev.soc_at_activity_start) +
          cfg.beta_charge_cost *
            (match prev.previous with
             | some q => prev.charge_cost - q.charge_cost
             | none => prev.charge_cost)
      else 0
    prev.utility + attraction + travel + duration_penalty + start_penalty + charging_terms

/-!  Concrete test instances used by the counterexamples and witnesses.
All activities sit at the same location (distance 0), so every quantity
is exactly representable and computable. -/

/-- A zero coefficient table. -/
def zeroQ : ℤ → ℚ := fun _ => 0

/-- A small base configuration: one-slot intervals, horizon 10, the C
defaults for the battery and tariff constants, zero utility
coefficients, and all activities co-located (distance 0). -/
def baseConfig : Config :=
  { time_interval := 1, speed := 1, travel_time_penalty := 0, horizon := 10,
    activities := [], battery_capacity := 60, soc_full := 1, soc_threshold := 3/10,
    energy_consumption_rate := 1/5, initial_soc := 1,
    slow_charge_power := 7, fast_charge_power := 22, rapid_charge_power := 50,
    slow_charge_rate := 0, fast_charge_rate := 0, rapid_charge_rate := 0,
    home_slow_charge_price := 13/50, AC_charge_price := 13/25,
    public_dc_charge_price := 79/100,
    tou_peak_factor := 3/2, tou_midpeak_factor := 5/2, tou_offpeak_factor := 1,
    peak_start := 12, peak_end := 18, midpeak1_start := 8, midpeak1_end := 12,
    midpeak2_start := 18, midpeak2_end := 21,
    asc_parameters := zeroQ, early_parameters := zeroQ, late_parameters := zeroQ,
    long_parameters := zeroQ, short_parameters := zeroQ,
    gamma_charge_work := 0, gamma_charge_non_work := 0, gamma_charge_home := 0,
    theta_soc := 0, beta_delta_soc := 0, beta_charge_cost := 0,
    dist := fun _ _ => 0 }

/-- Dawn: id 0, group 0, window [0,0], durations [1,9]. -/
def dawnAct : Activity :=
  { defaultActivity with min_duration := 1, max_duration := 9 }

/-- A dusk activity with the given id: group 0, window [0,9]. -/
def duskAct (n : ℤ) : Activity :=
  { defaultActivity with id := n, latest_start := 9, min_duration := 1, max_duration := 9 }

/-- A group-3 activity carrying a DSSR forbidden-group entry 5. -/
def actC1 : Activity :=
  { defaultActivity with
    id := 1, group := 3, memory := [5], latest_start := 9,
    min_duration := 1, max_duration := 9 }

def cfgC1 : Config := { baseConfig with activities := [dawnAct, actC1, duskAct 2] }

def cfgC4 : Config :=
  { baseConfig with time_interval := 5, activities := [dawnAct, duskAct 1] }

/-- A home activity (group 0) distinct from dawn. -/
def homeAct1 : Activity :=
  { defaultActivity with id := 1, latest_start := 9, min_duration := 1, max_duration := 9 }

def cfgC6 : Config := { baseConfig with activities := [dawnAct, homeAct1, duskAct 2] }

/-- A group-5 activity that no schedule of the C3 instance can use. -/
def offAct2 : Activity :=
  { defaultActivity with
    id := 2, group := 5, earliest_start := 9, latest_start := 9,
    min_duration := 9, max_duration := 9 }

def cfgC3 : Config :=
  { baseConfig with activities := [dawnAct, homeAct1, offAct2, duskAct 3] }

/-- The best schedule of the C3 instance: dawn, then the home activity,
then dusk. -/
def labC3 : Label :=
  update_label_from_activity cfgC3
    (update_label_from_activity cfgC3 (create_label cfgC3) homeAct1) (duskAct 3)

/-- The C3 activity array after the first DSSR iteration (group 0
appended to dawn's memory by `add_memory`). -/
def actsC3b : List Activity := add_memory cfgC3.activities 0 0

def cfgC3b : Config := { cfgC3 with activities := actsC3b }

/-- The best schedule of the re-run after the first DSSR iteration: the
same dawn-home-dusk chain (dawn's memory is never read because dawn is
never re-entered). -/
def labC3b : Label :=
  update_label_from_activity cfgC3b
    (update_label_from_activity cfgC3b (create_label cfgC3b) homeAct1) (duskAct 3)

/-- A slow-charging (code mode 2) work-like activity of group 1. -/
def actC5A : Activity :=
  { defaultActivity with
    id := 1, group := 1, latest_start := 900,
    min_duration := 1, max_duration := 200, charge_mode := 2, is_charging := true }

/-- A non-charging activity of group 2. -/
def actC5B : Activity :=
  { defaultActivity with
    id := 2, group := 2, latest_start := 900,
    min_duration := 1, max_duration := 200 }

def duskC5 : Activity :=
  { defaultActivity with
    id := 3, latest_start := 999, min_duration := 1,
    max_duration := 999 }

/-- Configuration for the charging-cost evaluation: hour-long intervals
(so the slow charge rate is positive even for the C integer division),
initial SOC one half, a direct slow rate of 1/10 per interval, and
`beta_charge_cost = 1` with every other coefficient zero. -/
def cfgC5 : Config :=
  { baseConfig with
    time_interval := 60, horizon := 1000, initial_soc := 1/2,
    slow_charge_rate := 1/10, beta_charge_cost := 1,
    activities := [dawnAct, actC5A, actC5B, duskC5] }

/-- Seed label of the C5 instance. -/
def labC5_0 : Label := create_label cfgC5

/-- First label at the charging activity (one charging interval done). -/
def labC5_1 : Label := update_label_from_activity cfgC5 labC5_0 actC5A

/-- Second label at the charging activity (two charging intervals). -/
def labC5_2 : Label := update_label_from_activity cfgC5 labC5_1 actC5A

/-- The transition that finishes the charging activity. -/
def labC5_3 : Label := update_label_from_activity cfgC5 labC5_2 actC5B

/-- Configuration for the charging-kernel evaluation: the C defaults with
a 5-minute interval, after `initialize_charge_rates`. -/
def cfgC7 : Config := initialize_charge_rates { baseConfig with time_interval := 5 }

/-- A home slow-charging activity in the header's encoding
(`charge_mode = 1` means slow). -/
def slowActC7 : Activity :=
  { defaultActivity with id := 1, charge_mode := 1, is_charging := true }

/-- Two co-linear activities 5.5 metres apart; with both y equal the
Euclidean distance is the absolute x difference, which `dist` returns. -/
def actC9P : Activity := defaultActivity

def actC9Q : Activity := { defaultActivity with x := 11/2 }

def cfgC9 : Config :=
  { baseConfig with time_interval := 5, dist := fun a1 a2 => |a2.x - a1.x| }

/-- A continuation label at dawn (used by the C10 witness: its
`previous` pointer is set, so the mismatch test is genuinely reached). -/
def labC10 : Label :=
  update_label_from_activity cfgC6 (create_label cfgC6) dawnAct

/-- An activity whose group is already in the memory of `labC5_1`
(used by the C6 witness). -/
def actC6W : Activity := { defaultActivity with id := 2, group := 1 }

/-!  Theorems. -/

@[simp] theorem Label.core_mk (c : LabelCore) (p : Option Label) : (Label.mk c p).core = c := rfl

@[simp] theorem Label.previous_mk (c : LabelCore) (p : Option Label) :
    (Label.mk c p).previous = p := rfl

@[simp] theorem Label.current_soc_mk (c : LabelCore) (p : Option Label) :
    (Label.mk c p).current_soc = c.current_soc := rfl

@[simp] theorem Label.act_mk (c : LabelCore) (p : Option Label) :
    (Label.mk c p).act = c.act := rfl

@[simp] theorem Label.act_id_mk (c : LabelCore) (p : Option Label) :
    (Label.mk c p).act_id = c.act_id := rfl

theorem group_mem_contains_iff (l : List ℤ) (v : ℤ) :
    group_mem_contains l v = true ↔ v ∈ l := by
  induction l with
  | nil => simp [group_mem_contains]
  | cons g rest ih =>
    by_cases h : g = v
    · simp [group_mem_contains, h]
    · simp only [group_mem_contains, if_neg h, ih, List.mem_cons]
      exact ⟨Or.inr, fun hv => hv.resolve_left fun hv2 => h hv2.symm⟩

theorem dom_mem_contains_iff (L1 L2 : Label) :
    dom_mem_contains L1 L2 = true ↔ ∀ g ∈ L1.mem, g ∈ L2.mem := by
  simp [dom_mem_contains, List.all_eq_true, group_mem_contains_iff]

/-- Claim C2: for non-null labels, `dominates` reports dominance exactly
when the two labels share an activity id, the memory of the second is
contained in that of the first, the first has utility at least as large,
and the first is no later; a null second label is trivially dominated
(return value 1). -/
theorem C2_dominates_iff (l1 l2 : Label) :
    (dominates (some l1) (some l2) ≠ 0 ↔
      l1.act_id = l2.act_id ∧ (∀ g ∈ l2.mem, g ∈ l1.mem) ∧
      l1.utility ≥ l2.utility ∧ l1.time ≤ l2.time) ∧
    dominates (some l1) none = 1 := by
  constructor
  · simp only [dominates]
    split_ifs with h1 h2 h3 h4
    · exact iff_of_false (by simp) (fun hc => h1 hc.1)
    · exact iff_of_true (by decide)
        ⟨not_not.mp h1, (dom_mem_contains_iff l2 l1).mp h3, h2, h4⟩
    · exact iff_of_false (by simp) (fun hc => h4 hc.2.2.2)
    · exact iff_of_false (by simp) (fun hc => h3 ((dom_mem_contains_iff l2 l1).mpr hc.2.1))
    · exact iff_of_false (by simp) (fun hc => h2 hc.2.2.1)
  · rfl

/-- Claim C1 (failing evaluation): on the transition out of the seed
label (memory `{0}`) into an activity of group 3 with forbidden set
`{5}`, the code's `unionLinkedLists` produces the memory `{3}` alone:
the predecessor group 0 and the forbidden group 5 are both dropped,
where the claim requires `{0} ∪ {3} ∪ {5}`. -/
theorem C1_transition_drops_group_memory :
    (create_label cfgC1).mem = [0] ∧ actC1.memory = [5] ∧ actC1.group = 3 ∧
    is_feasible cfgC1 (some (create_label cfgC1)) actC1 = true ∧
    (update_label_from_activity cfgC1 (create_label cfgC1) actC1).mem = [3] ∧
    ¬ ((0 : ℤ) ∈ (update_label_from_activity cfgC1 (create_label cfgC1) actC1).mem) ∧
    ¬ ((5 : ℤ) ∈ (update_label_from_activity cfgC1 (create_label cfgC1) actC1).mem) := by
  with_unfolding_all decide

/-- Claim C4 (failing evaluation): with `time_interval = 5`, continuing
the dawn activity produces `time = 6` and `duration = 6` from a label
with `time = duration = 1` — the code advances both fields by
`time_interval` slot-units instead of one slot.  The utility is
unchanged, as the claim states. -/
theorem C4_continuation_adds_time_interval :
    cfgC4.time_interval = 5 ∧
    is_feasible cfgC4 (some (create_label cfgC4)) (firstActivity cfgC4) = true ∧
    (create_label cfgC4).time = 1 ∧ (create_label cfgC4).duration = 1 ∧
    (update_label_from_activity cfgC4 (create_label cfgC4) (firstActivity cfgC4)).time = 6 ∧
    (update_label_from_activity cfgC4 (create_label cfgC4) (firstActivity cfgC4)).duration = 6 ∧
    (update_label_from_activity cfgC4 (create_label cfgC4) (firstActivity cfgC4)).utility
      = (create_label cfgC4).utility := by
  with_unfolding_all decide

/-- Claim C7 (failing evaluation): after `initialize_charge_rates` with
the default 5-minute interval, all three charge rates are 0 (the C
source divides `time_interval / 60` in integer arithmetic), and the
kernel maps `charge_mode = 1` — slow charging in the header's and the
claim's encoding — to the pair `(0, 0)` instead of
`(7/60 · 5/60, home_slow_charge_price) = (7/720, 13/50)`. -/
theorem C7_charge_kernel_truncated_and_shifted :
    cfgC7.time_interval = 5 ∧ cfgC7.battery_capacity = 60 ∧ cfgC7.slow_charge_power = 7 ∧
    cfgC7.slow_charge_rate = 0 ∧ cfgC7.fast_charge_rate = 0 ∧ cfgC7.rapid_charge_rate = 0 ∧
    get_charge_rate_and_price cfgC7 slowActC7 = (0, 0) ∧
    (7 : ℚ) / 60 * (5 / 60) = 7 / 720 ∧ (7 / 720 : ℚ) ≠ 0 ∧
    cfgC7.home_slow_charge_price = 13 / 50 ∧ (13 / 50 : ℚ) ≠ 0 := by
  with_unfolding_all decide

/-- Claim C6 (counterexample): the seed label's memory contains group 0
and the distinct home activity has group 0, yet `is_feasible` accepts
the transition — `mem_contains` exempts group 0 from the elementarity
check, so the claim's "no exception for any group value" fails. -/
theorem C6_home_group_exempt_from_elementarity :
    (0 : ℤ) ∈ (create_label cfgC6).mem ∧ homeAct1.group = 0 ∧
    ¬ (create_label cfgC6).act_id = homeAct1.id ∧
    is_feasible cfgC6 (some (create_label cfgC6)) homeAct1 = true := by
  with_unfolding_all decide

/-- Claim C6 (amended): on a transition (`a.id ≠ L.act_id`), whenever the
candidate's group is non-zero and already occurs in the label's memory,
the feasibility oracle rejects; group 0 (Home) is exempt. -/
theorem C6_elementarity_reject (cfg : Config) (L : Label) (a : Activity)
    (hid : ¬ L.act_id = a.id) (hg : a.group ≠ 0) (hmem : a.group ∈ L.mem) :
    is_feasible cfg (some L) a = false := by
  have hmc : mem_contains L a = true := by
    simp [mem_contains, hg, group_mem_contains_iff, hmem]
  simp only [is_feasible]
  split_ifs <;> simp_all

/-- Witness for C6: a label at the charging activity (memory `{1}`)
rejects a distinct activity of group 1. -/
theorem C6_elementarity_reject_witness :
    actC6W.group ∈ labC5_1.mem ∧
    is_feasible cfgC5 (some labC5_1) actC6W = false :=
  ⟨by with_unfolding_all decide,
    C6_elementarity_reject cfgC5 labC5_1 actC6W (by with_unfolding_all decide)
      (by with_unfolding_all decide) (by with_unfolding_all decide)⟩

theorem mem_memAt_add_memory {g : ℤ} :
    ∀ (acts : List Activity) (j c i : ℤ), g ∈ memAt acts i → g ∈ memAt (add_memory acts j c) i := by
  intro acts
  induction acts with
  | nil => intro j c i h; simpa [add_memory] using h
  | cons a rest ih =>
    intro j c i h
    by_cases hj : j = 0
    · subst hj
      simp only [add_memory, if_pos rfl]
      by_cases hi : i = 0
      · subst hi
        simp only [memAt, if_pos rfl] at h ⊢
        exact List.mem_append_left _ h
      · simp only [memAt, if_neg hi] at h ⊢
        exact h
    · simp only [add_memory, if_neg hj]
      by_cases hi : i = 0
      · subst hi
        simp only [memAt, if_pos rfl] at h ⊢
        exact h
      · simp only [memAt, if_neg hi] at h ⊢
        exact ih (j - 1) c (i - 1) h

theorem mem_memAt_foldl_add_memory {g0 : ℤ} (gval : ℤ) :
    ∀ (walk : List (ℤ × ℤ)) (acts : List Activity) (i : ℤ),
      g0 ∈ memAt acts i →
      g0 ∈ memAt (walk.foldl (fun as p => add_memory as p.1 gval) acts) i := by
  intro walk
  induction walk with
  | nil => intro acts i h; simpa using h
  | cons p rest ih =>
    intro acts i h
    simp only [List.foldl_cons]
    exact ih _ _ (mem_memAt_add_memory _ p.1 gval i h)

/-- Claim C3 (amended): a DSSR call never removes a group from any
activity's forbidden-group memory — the memories only accumulate
(`add_memory` appends, without a duplicate check, so a cycle-reporting
iteration need not strictly enlarge any memory as a set). -/
theorem C3_dssr_memory_monotone (N : ℤ) (acts : List Activity) (L : Option Label)
    (i g : ℤ) (h : g ∈ memAt acts i) : g ∈ memAt ((DSSR N acts L).2) i := by
  rcases hc : findCycle N (chainIds L) with _ | ⟨c, gg, rest⟩
  · simpa [DSSR, hc] using h
  · simpa [DSSR, hc] using mem_memAt_foldl_add_memory gg _ acts i h

/-- Witness for the amended C3: the group-0 entry added by the first
DSSR iteration survives the second call. -/
theorem C3_dssr_memory_monotone_witness :
    (0 : ℤ) ∈ memAt actsC3b 0 ∧
    (0 : ℤ) ∈ memAt ((DSSR 4 actsC3b (some labC3b)).2) 0 :=
  ⟨by with_unfolding_all decide,
    C3_dssr_memory_monotone 4 actsC3b (some labC3b) 0 0 (by with_unfolding_all decide)⟩

/-- Claim C3 (counterexample): on the instance `cfgC3` the DP's best
chain is dawn, a home activity, dusk (all group 0, all reachable by
feasible extensions).  `DSSR` reports a cycle on it — dawn and the home
activity are distinct activities of group 0 — and appends 0 to dawn's
memory.  The re-run produces the same chain (dawn's memory is never read
because dawn cannot be re-entered), and the second cycle-reporting
iteration changes no activity's forbidden set: it only appends a
duplicate group-0 entry, so the set view of every memory is unchanged
and the outer loop of `main.c` never terminates. -/
theorem C3_repeated_cycle_without_enlargement :
    Reaches cfgC3 labC3 ∧
    DSSR (num_activities cfgC3) cfgC3.activities (some labC3) = (true, actsC3b) ∧
    Reaches cfgC3b labC3b ∧
    (DSSR (num_activities cfgC3b) actsC3b (some labC3b)).1 = true ∧
    ((DSSR (num_activities cfgC3b) actsC3b (some labC3b)).2).map (fun a => a.memory.toFinset)
      = actsC3b.map (fun a => a.memory.toFinset) := by
  refine ⟨?_, by with_unfolding_all decide, ?_,
    by with_unfolding_all decide, by with_unfolding_all decide⟩
  · exact Reaches.step _ _
      (Reaches.step _ _ Reaches.seed (by with_unfolding_all decide) (by with_unfolding_all decide))
      (by with_unfolding_all decide) (by with_unfolding_all decide)
  · exact Reaches.step _ _
      (Reaches.step _ _ Reaches.seed (by with_unfolding_all decide) (by with_unfolding_all decide))
      (by with_unfolding_all decide) (by with_unfolding_all decide)

/-- Claim C5 (counterexample): in `cfgC5` every utility coefficient is 0
except `beta_charge_cost = 1`, so the utility of the transition that
finishes the two-interval charging activity is exactly the charging-cost
contribution.  The activity accumulated cost 78/25 in each of its two
intervals (cumulative cost 0 at its start, 78/25 after one interval,
156/25 at its end); the code adds `beta_charge_cost` times the cost of
the final interval only (78/25), while the claim's whole-activity
formula gives 156/25. -/
theorem C5_charge_cost_uses_last_interval :
    Reaches cfgC5 labC5_3 ∧
    labC5_3.previous = some labC5_2 ∧ labC5_2.previous = some labC5_1 ∧
    labC5_1.previous = some labC5_0 ∧ labC5_0.previous = none ∧
    (labC5_2.act.is_charging = true ∧ labC5_2.act_id = labC5_1.act_id ∧
      labC5_0.charge_cost = 0 ∧ labC5_1.charge_cost = 78/25 ∧
      labC5_2.charge_cost = 156/25 ∧ labC5_2.utility = 0 ∧
      cfgC5.beta_charge_cost = 1 ∧
      labC5_3.utility = 78/25 ∧
      labC5_2.utility + cfgC5.beta_charge_cost * (labC5_2.charge_cost - labC5_0.charge_cost)
        = 156/25 ∧
      (78/25 : ℚ) ≠ 156/25) := by
  refine ⟨?_, rfl, rfl, rfl, rfl, by with_unfolding_all decide⟩
  exact Reaches.step _ _
    (Reaches.step _ _
      (Reaches.step _ _ Reaches.seed (by with_unfolding_all decide) (by with_unfolding_all decide))
      (by with_unfolding_all decide) (by with_unfolding_all decide))
    (by with_unfolding_all decide) (by with_unfolding_all decide)

set_option maxHeartbeats 1000000 in
/-- Claim C5 (amended): the utility evaluator computes exactly the five
contributions of §4.3 — attraction, travel, duration penalty of the
finished activity, start-time penalty of the new activity, and the
charging terms — with the charging-cost term amended to
`beta_charge_cost` times the cost accumulated in the final interval of
the finished activity (the difference to the immediately preceding
label), not over the whole activity. -/
theorem C5_update_utility_matches_spec (cfg : Config) (L : Label) :
    update_utility cfg L = update_utility_spec cfg L := by
  obtain ⟨c, p⟩ := L
  cases p with
  | none => rfl
  | some prev =>
    obtain ⟨pc, pp⟩ := prev
    cases pp with
    | none =>
      simp only [update_utility, update_utility_spec, Label.previous, Label.core, Label.act,
        Label.utility, Label.duration, Label.start_time, Label.soc_at_activity_start,
        Label.current_soc, Label.charge_cost]
      split_ifs <;> first | tauto | ring
    | some q =>
      simp only [update_utility, update_utility_spec, Label.previous, Label.core, Label.act,
        Label.utility, Label.duration, Label.start_time, Label.soc_at_activity_start,
        Label.current_soc, Label.charge_cost]
      split_ifs <;> first | tauto | ring

theorem get_charge_rate_nonneg (cfg : Config) (a : Activity)
    (hs : 0 ≤ cfg.slow_charge_rate) (hf : 0 ≤ cfg.fast_charge_rate)
    (hr : 0 ≤ cfg.rapid_charge_rate) : 0 ≤ (get_charge_rate_and_price cfg a).1 := by
  unfold get_charge_rate_and_price
  split_ifs <;> simp [hs, hf, hr]

theorem energy_consumed_nonneg (cfg : Config) (a1 a2 : Activity)
    (he : 0 ≤ cfg.energy_consumption_rate) (hb : 0 < cfg.battery_capacity)
    (hd : 0 ≤ cfg.dist a1 a2) : 0 ≤ energy_consumed_soc cfg a1 a2 :=
  div_nonneg (mul_nonneg he (div_nonneg hd (by norm_num))) hb.le

set_option maxHeartbeats 1600000 in
theorem feasible_transition_soc (cfg : Config) (L : Label) (a : Activity)
    (hne : ¬ L.act_id = a.id) (hf : is_feasible cfg (some L) a = true) :
    0 ≤ L.current_soc - energy_consumed_soc cfg L.act a := by
  by_contra hneg
  have hlt : L.current_soc - energy_consumed_soc cfg L.act a < 0 := not_le.mp hneg
  have hfalse : is_feasible cfg (some L) a = false := by
    simp only [is_feasible]
    split_ifs <;> simp_all
  rw [hfalse] at hf
  exact absurd hf (by decide)

/-- Claim C8: every label the DP can reach from the seed keeps its state
of charge within `[0, 1]`, given `0 ≤ initial_soc ≤ 1`, `soc_full = 1`,
non-negative per-interval charge rates, a non-negative consumption rate,
a positive battery capacity and non-negative distances (all of which
hold for the program's configuration): charging adds
`min(soc_full - current_soc, rate)` and a transition is only feasible
when the SOC after travel is non-negative. -/
theorem C8_soc_invariant (cfg : Config)
    (h0 : 0 ≤ cfg.initial_soc) (h1 : cfg.initial_soc ≤ 1) (hfull : cfg.soc_full = 1)
    (hs : 0 ≤ cfg.slow_charge_rate) (hf2 : 0 ≤ cfg.fast_charge_rate)
    (hr : 0 ≤ cfg.rapid_charge_rate) (he : 0 ≤ cfg.energy_consumption_rate)
    (hb : 0 < cfg.battery_capacity) (hd : ∀ a1 a2, 0 ≤ cfg.dist a1 a2) :
    ∀ L, Reaches cfg L → 0 ≤ L.current_soc ∧ L.current_soc ≤ 1 := by
  intro L hL
  induction hL with
  | seed =>
    simp only [create_label, Label.current_soc, Label.core]
    exact ⟨h0, h1⟩
  | step L a hL ha hfe ih =>
    have hrate := get_charge_rate_nonneg cfg a hs hf2 hr
    unfold update_label_from_activity
    split_ifs with hid
    · -- transition to a new activity
      have hsoc0 : 0 ≤ L.current_soc - energy_consumed_soc cfg L.act a :=
        feasible_transition_soc cfg L a (fun h => hid h.symm) hfe
      have hsoc1 : L.current_soc - energy_consumed_soc cfg L.act a ≤ 1 := by
        have hcons := energy_consumed_nonneg cfg L.act a he hb (hd _ _)
        have := ih.2
        linarith
      simp only [Label.current_soc_mk, transition_base, hfull]
      split_ifs with hc
      · constructor
        · have hmin : 0 ≤ min (1 - (L.current_soc - energy_consumed_soc cfg L.act a))
              (get_charge_rate_and_price cfg a).1 := le_min (by linarith) hrate
          linarith
        · have hmin := min_le_left (1 - (L.current_soc - energy_consumed_soc cfg L.act a))
            (get_charge_rate_and_price cfg a).1
          linarith
      · exact ⟨hsoc0, hsoc1⟩
    · -- continuation at the same activity
      simp only [Label.current_soc_mk, continuation_base, hfull]
      split_ifs with hc
      · have hlt := hc.2
        constructor
        · have hmin : 0 ≤ min (1 - L.current_soc) (get_charge_rate_and_price cfg a).1 :=
            le_min (by linarith) hrate
          have := ih.1
          linarith
        · have hmin := min_le_left (1 - L.current_soc) (get_charge_rate_and_price cfg a).1
          linarith
      · exact ih

/-- Witness for C8: the seed label of the base configuration. -/
theorem C8_soc_invariant_witness :
    0 ≤ (create_label baseConfig).current_soc ∧ (create_label baseConfig).current_soc ≤ 1 :=
  C8_soc_invariant baseConfig (by norm_num [baseConfig]) (by norm_num [baseConfig])
    (by norm_num [baseConfig]) (by norm_num [baseConfig]) (by norm_num [baseConfig])
    (by norm_num [baseConfig]) (by norm_num [baseConfig]) (by norm_num [baseConfig])
    (by intro a1 a2; norm_num [baseConfig])
    (create_label baseConfig) Reaches.seed

/-- Claim C9 (counterexample): two co-located-in-y activities 5.5 units
apart with speed 1 give raw travel minutes 5.5; the claim's formula
`ceil(5.5 / 5)` is 2 time-slots, but the code first truncates the raw
minutes to the int 5 and then rounds, returning 1. -/
theorem C9_travel_time_truncates_minutes :
    IsDistOf actC9P actC9Q (cfgC9.dist actC9P actC9Q) ∧
    cfgC9.dist actC9P actC9Q / cfgC9.speed = 11/2 ∧
    travel_time cfgC9 actC9P actC9Q = 1 ∧
    ⌈(cfgC9.dist actC9P actC9Q / cfgC9.speed) / (cfgC9.time_interval : ℚ)⌉ = 2 ∧
    (1 : ℤ) ≠ 2 := by
  with_unfolding_all decide

/-- Claim C9 (amended): `travel_time` equals the ceiling of the
integer-truncated raw minutes `(int)(dist/speed)` over `time_interval`
(not the ceiling of the exact raw minutes); the result is non-negative,
and it is 0 for activities at the same location. -/
theorem C9_travel_time_formula (cfg : Config) (a1 a2 : Activity)
    (hs : 0 < cfg.speed) (ht : 0 < cfg.time_interval)
    (hd : IsDistOf a1 a2 (cfg.dist a1 a2)) :
    travel_time cfg a1 a2
      = ⌈((⌊cfg.dist a1 a2 / cfg.speed⌋ : ℤ) : ℚ) / (cfg.time_interval : ℚ)⌉ ∧
    0 ≤ travel_time cfg a1 a2 ∧
    (a1.x = a2.x ∧ a1.y = a2.y → travel_time cfg a1 a2 = 0) := by
  have hd0 : 0 ≤ cfg.dist a1 a2 := hd.1
  have hq : 0 ≤ cfg.dist a1 a2 / cfg.speed := div_nonneg hd0 hs.le
  have hct : ctrunc (cfg.dist a1 a2 / cfg.speed) = ⌊cfg.dist a1 a2 / cfg.speed⌋ := by
    unfold ctrunc
    rw [if_neg (not_lt.mpr hq)]
  have hmain : travel_time cfg a1 a2
      = ⌈((⌊cfg.dist a1 a2 / cfg.speed⌋ : ℤ) : ℚ) / (cfg.time_interval : ℚ)⌉ := by
    simp only [travel_time, travel_time_of, cdiv, hct]
    exact Int.mul_tdiv_cancel _ ht.ne'
  refine ⟨hmain, ?_, ?_⟩
  · rw [hmain]
    refine Int.ceil_nonneg (div_nonneg ?_ ?_)
    · exact_mod_cast Int.floor_nonneg.mpr hq
    · exact_mod_cast ht.le
  · intro hxy
    have hsq : distSq a1 a2 = 0 := by
      unfold distSq
      rw [hxy.1, hxy.2]
      ring
    have hzero : cfg.dist a1 a2 = 0 := by
      have h2 := hd.2
      rw [hsq] at h2
      exact (pow_eq_zero_iff (two_ne_zero)).mp h2
    rw [hmain, hzero]
    simp

/-- Witness for the amended C9: the 5.5-unit pair of `cfgC9`. -/
theorem C9_travel_time_formula_witness :
    IsDistOf actC9P actC9Q (cfgC9.dist actC9P actC9Q) ∧
    travel_time cfgC9 actC9P actC9Q
      = ⌈((⌊cfgC9.dist actC9P actC9Q / cfgC9.speed⌋ : ℤ) : ℚ) / (cfgC9.time_interval : ℚ)⌉ :=
  ⟨by with_unfolding_all decide,
    (C9_travel_time_formula cfgC9 actC9P actC9Q (by with_unfolding_all decide)
      (by with_unfolding_all decide) (by with_unfolding_all decide)).1⟩

theorem idsIndexed_get? {cfg : Config} (hidx : idsIndexed cfg) {i : ℕ} {a : Activity}
    (h : cfg.activities.get? i = some a) : a.id = (i : ℤ) := by
  have hlt : i < cfg.activities.length := by
    by_contra hge
    rw [List.get?_eq_none.mpr (not_lt.mp hge)] at h
    exact Option.noConfusion h
  have hg : cfg.activities.get ⟨i, hlt⟩ = a := by
    rw [List.get?_eq_get hlt] at h
    exact Option.some.inj h
  rw [← hg]
  exact hidx ⟨i, hlt⟩

theorem reaches_act_wf (cfg : Config) (hidx : idsIndexed cfg) (hne : cfg.activities ≠ []) :
    ∀ L, Reaches cfg L → L.act ∈ cfg.activities ∧ L.act_id = L.act.id := by
  intro L hL
  induction hL with
  | seed =>
    obtain ⟨b, t, hbt⟩ := List.exists_cons_of_ne_nil hne
    have hb0 : b.id = 0 := by
      have hget : cfg.activities.get? 0 = some b := by rw [hbt]; rfl
      simpa using idsIndexed_get? hidx hget
    have hfa : firstActivity cfg = b := by
      unfold firstActivity
      rw [hbt]
      rfl
    constructor
    · show (create_label cfg).act ∈ cfg.activities
      simp only [create_label, Label.act_mk]
      rw [hfa, hbt]
      exact List.mem_cons_self b t
    · show (create_label cfg).act_id = (create_label cfg).act.id
      simp only [create_label, Label.act_mk, Label.act_id_mk]
      rw [hfa, hb0]
  | step L a hL ha hf ih =>
    constructor
    · show (update_label_from_activity cfg L a).act ∈ cfg.activities
      unfold update_label_from_activity
      split_ifs <;> simpa [transition_base, continuation_base] using ha
    · show (update_label_from_activity cfg L a).act_id = (update_label_from_activity cfg L a).act.id
      unfold update_label_from_activity
      split_ifs <;> simp [transition_base, continuation_base]

theorem activities_id_inj (cfg : Config) (hidx : idsIndexed cfg) {b c : Activity}
    (hb : b ∈ cfg.activities) (hc : c ∈ cfg.activities) (hbc : b.id = c.id) : b = c := by
  obtain ⟨i, hi⟩ := List.mem_iff_get.mp hb
  obtain ⟨j, hj⟩ := List.mem_iff_get.mp hc
  have hbi : b.id = ((i : ℕ) : ℤ) := by rw [← hi]; exact hidx i
  have hcj : c.id = ((j : ℕ) : ℤ) := by rw [← hj]; exact hidx j
  have hij : (i : ℕ) = (j : ℕ) := by
    have hz : ((i : ℕ) : ℤ) = ((j : ℕ) : ℤ) := by rw [← hbi, ← hcj, hbc]
    exact_mod_cast hz
  rw [← hi, ← hj]
  congr 1
  exact Fin.ext hij

/-- Claim C10: for a reachable label and a candidate activity of the
input array with the same id, the label's `act` back-reference is the
same Activity record as the candidate (ids index the array), so the
continuity test `L->act->charge_mode != a->charge_mode` of
`is_feasible`'s continuation case can never fire. -/
theorem C10_charge_mode_mismatch_unreachable (cfg : Config)
    (hidx : idsIndexed cfg) (hne : cfg.activities ≠ [])
    (L : Label) (a : Activity) (hL : Reaches cfg L) (ha : a ∈ cfg.activities)
    (hid : a.id = L.act_id) :
    L.act = a ∧ charge_mode_mismatch L a = false := by
  have hwf := reaches_act_wf cfg hidx hne L hL
  have heq : L.act = a := activities_id_inj cfg hidx hwf.1 ha (by rw [← hwf.2, ← hid])
  refine ⟨heq, ?_⟩
  rcases hp : L.previous with _ | p
  · simp [charge_mode_mismatch, hp]
  · simp [charge_mode_mismatch, hp, heq]

/-- Witness for C10: a dawn-continuation label (whose `previous` is set)
against the dawn activity itself. -/
theorem C10_charge_mode_mismatch_unreachable_witness :
    labC10.act = dawnAct ∧ charge_mode_mismatch labC10 dawnAct = false :=
  C10_charge_mode_mismatch_unreachable cfgC6 (by with_unfolding_all decide)
    (by with_unfolding_all decide) labC10 dawnAct
    (Reaches.step _ _ Reaches.seed (by with_unfolding_all decide) (by with_unfolding_all decide))
    (by with_unfolding_all decide) (by with_unfolding_all decide)

end EVSched
